import Mathlib

/-!
Shallow embedding of the restaurant-app backend (src/main.py, src/schemas.py).

Modelling conventions:
* A BSON document is an association list `Doc` with the keys unique in any
  dict that Python ever builds; `getKey`, `setKey`, `eraseKey` mirror Python
  dict lookup, in-place assignment and `pop`.
* `ObjectId` values are modelled by the constructor `BVal.oid` carrying the
  canonical string form; the store generates fresh ids via `genOid` applied
  to a per-database counter `nextId` (ids are opaque and unique, which is
  all the code relies on; the 12-byte structure is abstracted away).
* `datetime.now(timezone.utc)` is modelled by a logical clock `clock` in the
  database state; `isoformat()` is abstracted to `isoStr`.
* A store that failed to connect is `none : Option DB`, matching `db is None`.
* Handlers are pure state transformers `Option DB → payload → Option DB × Resp`;
  an uncaught Python exception inside a handler surfaces as a 500 response,
  which is how FastAPI reports it.
-/

/-- BSON-ish values stored in documents. `oid` is a store-native ObjectId
(carrying its canonical string form), `timev` a datetime, `strList` a list
of strings (used for product tags). -/
inductive BVal where
  | oid (s : String)
  | str (s : String)
  | num (q : Rat)
  | bool (b : Bool)
  | null
  | timev (t : Nat)
  | strList (l : List String)
deriving DecidableEq, Repr

/-- A document: association list of field name to value (Python dict with
insertion order, keys unique). -/
abbrev Doc := List (String × BVal)

/-- Python dict lookup `d[k]` / `k in d`: first entry with the key. -/
def getKey : Doc → String → Option BVal
  | [], _ => none
  | (k, v) :: rest, key => if k = key then some v else getKey rest key

/-- Python dict assignment `d[k] = v`: replace in place if the key exists,
otherwise append at the end (insertion order). -/
def setKey : Doc → String → BVal → Doc
  | [], key, val => [(key, val)]
  | (k, v) :: rest, key, val =>
      if k = key then (k, val) :: rest else (k, v) :: setKey rest key val

/-- Python `d.pop(k)`: remove the first entry with the key. -/
def eraseKey : Doc → String → Doc
  | [], _ => []
  | (k, v) :: rest, key => if k = key then rest else (k, v) :: eraseKey rest key

/-- Apply a `$set` field list left to right (Mongo `update_one` `$set`). -/
def applySets (d : Doc) (sets : List (String × BVal)) : Doc :=
  sets.foldl (fun a kv => setKey a kv.1 kv.2) d

/-- Hex digit characters used in ObjectId string forms. -/
def hexChar (k : Nat) : Char :=
  if k < 10 then Char.ofNat (48 + k) else Char.ofNat (87 + k)

/-- Canonical string form of the `n`-th store-generated ObjectId: the base-16
digits of `n` rendered with `hexChar`. Only opacity and injectivity of this
rendering are relied on by the code. -/
def genOid (n : Nat) : String :=
  String.mk ((Nat.digits 16 n).map hexChar)

/-- Abstraction of `datetime.isoformat()` over the logical clock. -/
def isoStr (t : Nat) : String := toString t

/-- Python `str.strip()`: drop leading and trailing whitespace (structural
recursion, so that concrete phones evaluate). -/
def pyStrip (s : String) : String :=
  String.mk
    (((s.data.dropWhile Char.isWhitespace).reverse.dropWhile
        Char.isWhitespace).reverse)

/-- Python `str(v)` for the values that can appear in a document. Only the
`oid` and `str` cases are ever hit by the code under consideration. -/
def bvalStr : BVal → String
  | .oid s => s
  | .str s => s
  | .num q => toString q
  | .bool b => if b then "True" else "False"
  | .null => "None"
  | .timev t => isoStr t
  | .strList l => toString l

/-- Whether a value is a store-native ObjectId. -/
def isOid : BVal → Bool
  | .oid _ => true
  | _ => false

/-- Value transformation of the `to_str_id` loop: `str(v)` exactly when the
value is an ObjectId, otherwise left alone. -/
def strOidVal : BVal → BVal
  | .oid s => .str s
  | v => v

/-- The loop in `to_str_id`: stringify every top-level ObjectId value. -/
def stringifyOids (d : Doc) : Doc :=
  d.map (fun kv => (kv.1, strOidVal kv.2))

/-- `to_str_id` from src/main.py: empty (falsy) documents pass through;
otherwise `_id` is popped and re-added as a stringified `id` field, and any
remaining top-level ObjectId value is stringified in place. -/
def to_str_id (doc : Doc) : Doc :=
  if doc = [] then doc
  else
    stringifyOids
      (match getKey doc "_id" with
        | some v => setKey (eraseKey doc "_id") "id" (.str (bvalStr v))
        | none => doc)

/-- `bson.ObjectId.is_valid` on strings: exactly 24 hexadecimal characters. -/
def isValidOid (s : String) : Bool :=
  s.length == 24 && s.data.all (fun c =>
    c.isDigit || ('a' ≤ c && c ≤ 'f') || ('A' ≤ c && c ≤ 'F'))

/-- The `_id` filter value a detail handler queries with:
`ObjectId(s)` when `is_valid`, else the literal string. `ObjectId` equality
is byte equality, i.e. case-insensitive on the hex form. -/
def idFilterVal (s : String) : BVal :=
  if isValidOid s then .oid s.toLower else .str s

/-- The connected document store: three collections, the fresh-ObjectId
counter and the logical clock. -/
structure DB where
  user : List Doc
  restaurant : List Doc
  product : List Doc
  nextId : Nat
  clock : Nat
deriving DecidableEq, Repr

/-- Equality filter `{key: value}` as used by every query in the code. -/
def matchesF (d : Doc) (f : String × BVal) : Bool :=
  getKey d f.1 == some f.2

/-- `collection.find_one(filter)`: first matching document. -/
def find_one (coll : List Doc) (f : String × BVal) : Option Doc :=
  coll.find? (fun d => matchesF d f)

/-- `collection.find(filter)`: all matching documents, in order. -/
def find_filtered (coll : List Doc) (f : String × BVal) : List Doc :=
  coll.filter (fun d => matchesF d f)

/-- `collection.update_one(filter, {"$set": sets})`: set fields on the first
matching document. -/
def update_one (coll : List Doc) (f : String × BVal)
    (sets : List (String × BVal)) : List Doc :=
  match coll with
  | [] => []
  | d :: rest =>
      if matchesF d f then applySets d sets :: rest
      else d :: update_one rest f sets

/-- `collection.insert_one(doc)`: the driver adds a fresh `_id` and appends
the document; returns the new collection and the advanced id counter. -/
def insertDoc (coll : List Doc) (nid : Nat) (doc : Doc) : List Doc × Nat :=
  (coll ++ [setKey doc "_id" (.oid (genOid nid))], nid + 1)

/-- `collection.insert_many(docs)`: sequential `insert_one`. -/
def insertMany (coll : List Doc) (nid : Nat) : List Doc → List Doc × Nat
  | [] => (coll, nid)
  | d :: rest =>
      let (c1, n1) := insertDoc coll nid d
      insertMany c1 n1 rest

/-- `RestaurantOut` response model (pydantic). Extra document fields are
ignored by pydantic's default config. -/
structure RestaurantOut where
  id : String
  name : String
  description : Option String
  address : Option String
  image : Option String
  rating : Option Rat
  cuisine : Option String
deriving DecidableEq, Repr

/-- `ProductOut` response model (pydantic). -/
structure ProductOut where
  id : String
  title : String
  description : Option String
  price : Rat
  image : Option String
  restaurant_id : Option String
  tags : Option (List String)
deriving DecidableEq, Repr

/-- Parse a required string field (pydantic validation). -/
def asStr? : Option BVal → Option String
  | some (.str s) => some s
  | _ => none

/-- Parse an `Optional[str]` field: missing or null becomes `none`. -/
def asOptStr? : Option BVal → Option (Option String)
  | none => some none
  | some .null => some none
  | some (.str s) => some (some s)
  | some _ => none

/-- Parse a required numeric field. -/
def asNum? : Option BVal → Option Rat
  | some (.num q) => some q
  | _ => none

/-- Parse an `Optional[float]` field. -/
def asOptNum? : Option BVal → Option (Option Rat)
  | none => some none
  | some .null => some none
  | some (.num q) => some (some q)
  | some _ => none

/-- Parse the `Optional[List[str]]` tags field, whose pydantic default is
the empty list. -/
def asOptTags? : Option BVal → Option (Option (List String))
  | none => some (some [])
  | some .null => some none
  | some (.strList l) => some (some l)
  | some _ => none

/-- Validate a normalized document against `RestaurantOut`. -/
def restaurantOut? (d : Doc) : Option RestaurantOut :=
  match asStr? (getKey d "id"), asStr? (getKey d "name"),
        asOptStr? (getKey d "description"), asOptStr? (getKey d "address"),
        asOptStr? (getKey d "image"), asOptNum? (getKey d "rating"),
        asOptStr? (getKey d "cuisine") with
  | some i, some n, some de, some ad, some im, some ra, some cu =>
      some ⟨i, n, de, ad, im, ra, cu⟩
  | _, _, _, _, _, _, _ => none

/-- Validate a normalized document against `ProductOut`. -/
def productOut? (d : Doc) : Option ProductOut :=
  match asStr? (getKey d "id"), asStr? (getKey d "title"),
        asOptStr? (getKey d "description"), asNum? (getKey d "price"),
        asOptStr? (getKey d "image"), asOptStr? (getKey d "restaurant_id"),
        asOptTags? (getKey d "tags") with
  | some i, some t, some de, some pr, some im, some ri, some tg =>
      some ⟨i, t, de, pr, im, ri, tg⟩
  | _, _, _, _, _, _, _ => none

/-- Collect a list of optional parses; any failure fails the response
(FastAPI turns a response-validation error into a 500). -/
def allSome {α : Type} : List (Option α) → Option (List α)
  | [] => some []
  | none :: _ => none
  | some a :: rest => (allSome rest).map (a :: ·)

/-- HTTP responses of the endpoints under consideration. `err s d` is an
`HTTPException(status_code=s, detail=d)` or an uncaught-exception 500. -/
inductive Resp where
  | sendOk (otp message : String)
  | verifyOk (user : Doc)
  | restListOk (rs : List RestaurantOut)
  | restOk (r : RestaurantOut)
  | prodListOk (ps : List ProductOut)
  | prodOk (p : ProductOut)
  | err (status : Nat) (detail : String)
deriving DecidableEq, Repr

/-- HTTP status code of a response. -/
def Resp.statusCode : Resp → Nat
  | .err s _ => s
  | _ => 200

/-- POST /auth/send-otp. -/
def send_otp (dbo : Option DB) (phoneRaw : String) : Option DB × Resp :=
  match dbo with
  | none => (none, .err 500 "Database not configured")
  | some db =>
      let phone := pyStrip phoneRaw
      if phone = "" then (some db, .err 400 "Phone is required")
      else
        let now := isoStr db.clock
        match find_one db.user ("phone", .str phone) with
        | some user =>
            match getKey user "_id" with
            | some uid =>
                (some { db with
                    user := update_one db.user ("_id", uid)
                      [("is_verified", .bool false), ("last_login", .str now)],
                    clock := db.clock + 1 },
                 .sendOk "1234" "OTP generated. Use 1234 for demo.")
            | none => (some db, .err 500 "Internal Server Error")
        | none =>
            let doc : Doc :=
              [("phone", .str phone), ("name", .null),
               ("is_verified", .bool false), ("last_login", .str now),
               ("created_at", .timev db.clock), ("updated_at", .timev db.clock)]
            let ins := insertDoc db.user db.nextId doc
            (some { db with user := ins.1, nextId := ins.2, clock := db.clock + 1 },
             .sendOk "1234" "OTP generated. Use 1234 for demo.")

/-- POST /auth/verify. -/
def verify_otp (dbo : Option DB) (phoneRaw otp : String) : Option DB × Resp :=
  match dbo with
  | none => (none, .err 500 "Database not configured")
  | some db =>
      let phone := pyStrip phoneRaw
      if otp ≠ "1234" then (some db, .err 400 "Invalid OTP")
      else
        match find_one db.user ("phone", .str phone) with
        | none => (some db, .err 404 "User not found")
        | some user =>
            match getKey user "_id" with
            | some uid =>
                let users2 := update_one db.user ("_id", uid)
                  [("is_verified", .bool true), ("updated_at", .timev db.clock)]
                let db2 := { db with user := users2, clock := db.clock + 1 }
                match find_one db2.user ("_id", uid) with
                | some u2 => (some db2, .verifyOk (to_str_id u2))
                | none => (some db2, .verifyOk [])
            | none => (some db, .err 500 "Internal Server Error")

/-- GET /restaurants. -/
def list_restaurants (dbo : Option DB) : Resp :=
  match dbo with
  | none => .restListOk []
  | some db =>
      match allSome ((db.restaurant.map to_str_id).map restaurantOut?) with
      | some rs => .restListOk rs
      | none => .err 500 "Internal Server Error"

/-- GET /restaurants/{restaurant_id}. -/
def get_restaurant (dbo : Option DB) (restaurant_id : String) : Resp :=
  match dbo with
  | none => .err 404 "Not found"
  | some db =>
      match find_one db.restaurant ("_id", idFilterVal restaurant_id) with
      | none => .err 404 "Restaurant not found"
      | some doc =>
          match restaurantOut? (to_str_id doc) with
          | some r => .restOk r
          | none => .err 500 "Internal Server Error"

/-- GET /restaurants/{restaurant_id}/products: literal string match on the
stored `restaurant_id` field. -/
def get_restaurant_products (dbo : Option DB) (restaurant_id : String) : Resp :=
  match dbo with
  | none => .prodListOk []
  | some db =>
      let docs := find_filtered db.product ("restaurant_id", .str restaurant_id)
      match allSome ((docs.map to_str_id).map productOut?) with
      | some ps => .prodListOk ps
      | none => .err 500 "Internal Server Error"

/-- GET /products. -/
def list_products (dbo : Option DB) : Resp :=
  match dbo with
  | none => .prodListOk []
  | some db =>
      match allSome ((db.product.map to_str_id).map productOut?) with
      | some ps => .prodListOk ps
      | none => .err 500 "Internal Server Error"

/-- GET /products/{product_id}. -/
def get_product (dbo : Option DB) (product_id : String) : Resp :=
  match dbo with
  | none => .err 404 "Not found"
  | some db =>
      match find_one db.product ("_id", idFilterVal product_id) with
      | none => .err 404 "Product not found"
      | some doc =>
          match productOut? (to_str_id doc) with
          | some p => .prodOk p
          | none => .err 500 "Internal Server Error"

/-- The two demonstration restaurant documents inserted by the seed routine
(timestamps taken from the logical clock `t`). -/
def seedRestaurants (t : Nat) : List Doc :=
  [[("name", .str "Spice Garden"),
    ("description", .str "Authentic Indian cuisine with a modern twist"),
    ("address", .str "123 Curry Ave"),
    ("image", .str "https://images.unsplash.com/photo-1544025162-d76694265947?q=80&w=1600&auto=format&fit=crop"),
    ("rating", .num (46/10)),
    ("cuisine", .str "Indian"),
    ("created_at", .timev t), ("updated_at", .timev t)],
   [("name", .str "Pasta Piazza"),
    ("description", .str "Fresh handmade pastas and rustic sauces"),
    ("address", .str "45 Roma Street"),
    ("image", .str "https://images.unsplash.com/photo-1523986371872-9d3ba2e2f642?q=80&w=1600&auto=format&fit=crop"),
    ("rating", .num (47/10)),
    ("cuisine", .str "Italian"),
    ("created_at", .timev t), ("updated_at", .timev t)]]

/-- Name-to-id map built by `{r["name"]: r["_id"] for r in rest_docs}`:
a Python dict keyed by the name values, later entries overwriting earlier
ones. `none` models the `KeyError` raised on a document missing `name` or
`_id`. -/
def buildNameMap (m : List (BVal × BVal)) : List Doc → Option (List (BVal × BVal))
  | [] => some m
  | r :: rest =>
      match getKey r "name", getKey r "_id" with
      | some n, some i =>
          buildNameMap ((m.filter (fun kv => kv.1 ≠ n)) ++ [(n, i)]) rest
      | _, _ => none

/-- `rest_ids.get(name)` stringified: `str(None)` is `"None"` when the name
is absent (the known dangling-reference edge case). -/
def strOfGet (m : List (BVal × BVal)) (name : String) : String :=
  match m.find? (fun kv => kv.1 = BVal.str name) with
  | some kv => bvalStr kv.2
  | none => "None"

/-- The three demonstration product documents, with `restaurant_id` looked up
by restaurant name in the map `m`. -/
def seedProducts (m : List (BVal × BVal)) (t : Nat) : List Doc :=
  [[("title", .str "Butter Chicken"),
    ("description", .str "Creamy tomato sauce with tender chicken"),
    ("price", .num (1299/100)),
    ("image", .str "https://images.unsplash.com/photo-1604909052743-88e0b01e6e8b?q=80&w=1600&auto=format&fit=crop"),
    ("restaurant_id", .str (strOfGet m "Spice Garden")),
    ("tags", .strList ["spicy", "non-veg"]),
    ("created_at", .timev t), ("updated_at", .timev t)],
   [("title", .str "Paneer Tikka"),
    ("description", .str "Grilled cottage cheese with spices"),
    ("price", .num (95/10)),
    ("image", .str "https://images.unsplash.com/photo-1625944528146-1b02d4ca9d24?q=80&w=1600&auto=format&fit=crop"),
    ("restaurant_id", .str (strOfGet m "Spice Garden")),
    ("tags", .strList ["veg", "grill"]),
    ("created_at", .timev t), ("updated_at", .timev t)],
   [("title", .str "Penne Arrabbiata"),
    ("description", .str "Spicy tomato sauce with garlic and chili"),
    ("price", .num (1099/100)),
    ("image", .str "https://images.unsplash.com/photo-1473093295043-cdd812d0e601?q=80&w=1600&auto=format&fit=crop"),
    ("restaurant_id", .str (strOfGet m "Pasta Piazza")),
    ("tags", .strList ["veg", "pasta"]),
    ("created_at", .timev t), ("updated_at", .timev t)]]

/-- The startup seed routine on a connected store. The outer `Option` is
`none` when the routine raises (a seeded restaurant document missing `name`
or `_id`, impossible in the states the claims consider). -/
def seedConnected (db : DB) : Option DB :=
  let db1 :=
    if db.restaurant.length = 0 then
      let ins := insertMany db.restaurant db.nextId (seedRestaurants db.clock)
      { db with restaurant := ins.1, nextId := ins.2 }
    else db
  if db1.product.length = 0 then
    match buildNameMap [] db1.restaurant with
    | none => none
    | some m =>
        let ins := insertMany db1.product db1.nextId (seedProducts m db1.clock)
        some { db1 with product := ins.1, nextId := ins.2 }
  else some db1

/-- `seed_data` from src/main.py: returns immediately when the store handle
is null, otherwise runs `seedConnected`. -/
def seed_data : Option DB → Option (Option DB)
  | none => some none
  | some db => (seedConnected db).map some

/-- A tiny heap of Python dict objects, to state heap (non-)mutation facts
about `to_str_id`: a cell per dict, addressed by index. -/
structure Heap where
  cells : List Doc
deriving Repr

/-- Allocate a fresh dict object. -/
def Heap.alloc (h : Heap) (d : Doc) : Heap × Nat :=
  (⟨h.cells ++ [d]⟩, h.cells.length)

/-- Overwrite the dict object at a reference. -/
def Heap.write (h : Heap) (r : Nat) (d : Doc) : Heap :=
  ⟨h.cells.set r d⟩

/-- Read the dict object at a reference. -/
def Heap.read (h : Heap) (r : Nat) : Doc :=
  (h.cells[r]?).getD []

/-- The stringification loop of `to_str_id` as heap writes: each iteration
that hits an ObjectId value assigns `d[k] = str(v)` on the dict at `rd`. -/
def stringifyLoop (rd : Nat) (items : List (String × BVal)) (h : Heap) : Heap :=
  items.foldl
    (fun hh kv =>
      match kv.2 with
      | .oid s => hh.write rd (setKey (hh.read rd) kv.1 (.str s))
      | _ => hh) h

/-- The `if "_id" in d: d["id"] = str(d.pop("_id"))` statement of `to_str_id`
as a write on the dict at `rd`. -/
def idPopStep (rd : Nat) (h : Heap) : Heap :=
  match getKey (h.read rd) "_id" with
  | some v =>
      h.write rd (setKey (eraseKey (h.read rd) "_id") "id" (.str (bvalStr v)))
  | none => h

/-- `to_str_id` against the heap, statement-by-statement: return the argument
itself when falsy; otherwise allocate the copy `d`, perform the `_id` pop
and `id` assignment on `d`, run the stringification loop over a snapshot of
`d`'s items, and return the reference to `d`. -/
def to_str_id_impl (h0 : Heap) (r : Nat) : Heap × Nat :=
  let doc := h0.read r
  if doc = [] then (h0, r)
  else
    let al := h0.alloc doc
    let h2 := idPopStep al.2 al.1
    (stringifyLoop al.2 (h2.read al.2) h2, al.2)

/-- Keys of a document are pairwise distinct (true of every Python dict). -/
def keysNodup (d : Doc) : Prop := (d.map Prod.fst).Nodup

theorem getKey_setKey_eq (d : Doc) (k : String) (v : BVal) :
    getKey (setKey d k v) k = some v := by
  induction d with
  | nil => simp [getKey, setKey]
  | cons kv rest ih =>
      obtain ⟨k1, v1⟩ := kv
      by_cases h : k1 = k
      · simp [setKey, getKey, h]
      · simp [setKey, getKey, h, ih]

theorem getKey_setKey_ne (d : Doc) (k k' : String) (v : BVal) (h : k' ≠ k) :
    getKey (setKey d k v) k' = getKey d k' := by
  have hkk : ¬(k = k') := fun hh => h hh.symm
  induction d with
  | nil => simp [getKey, setKey, hkk]
  | cons kv rest ih =>
      obtain ⟨k1, v1⟩ := kv
      by_cases h1 : k1 = k
      · subst h1
        simp [setKey, getKey, hkk]
      · simp only [setKey, if_neg h1, getKey, ih]

theorem getKey_eraseKey_ne (d : Doc) (k k' : String) (h : k' ≠ k) :
    getKey (eraseKey d k) k' = getKey d k' := by
  have hkk : ¬(k = k') := fun hh => h hh.symm
  induction d with
  | nil => simp [eraseKey]
  | cons kv rest ih =>
      obtain ⟨k1, v1⟩ := kv
      by_cases h1 : k1 = k
      · subst h1
        simp [eraseKey, getKey, hkk]
      · simp only [eraseKey, if_neg h1, getKey, ih]

theorem getKey_eq_none_of_not_mem (d : Doc) (k : String)
    (h : k ∉ d.map Prod.fst) : getKey d k = none := by
  induction d with
  | nil => rfl
  | cons kv rest ih =>
      obtain ⟨k1, v1⟩ := kv
      simp only [List.map_cons, List.mem_cons] at h
      push_neg at h
      simp only [getKey, if_neg (fun hh : k1 = k => h.1 hh.symm)]
      exact ih h.2

theorem not_mem_keys_eraseKey (d : Doc) (k : String) (h : keysNodup d) :
    k ∉ (eraseKey d k).map Prod.fst := by
  induction d with
  | nil => simp [eraseKey]
  | cons kv rest ih =>
      obtain ⟨k1, v1⟩ := kv
      simp only [keysNodup, List.map_cons, List.nodup_cons] at h
      by_cases h1 : k1 = k
      · subst h1
        simp only [eraseKey, if_pos rfl]
        exact h.1
      · simp only [eraseKey, if_neg h1, List.map_cons, List.mem_cons]
        push_neg
        exact ⟨fun hh => h1 hh.symm, ih h.2⟩

theorem getKey_eraseKey_self (d : Doc) (k : String) (h : keysNodup d) :
    getKey (eraseKey d k) k = none :=
  getKey_eq_none_of_not_mem _ _ (not_mem_keys_eraseKey d k h)

theorem isOid_strOidVal (v : BVal) : isOid (strOidVal v) = false := by
  cases v <;> rfl

theorem strOidVal_id (v : BVal) (h : isOid v = false) : strOidVal v = v := by
  cases v <;> simp_all [isOid, strOidVal]

theorem getKey_stringifyOids (d : Doc) (k : String) :
    getKey (stringifyOids d) k = (getKey d k).map strOidVal := by
  induction d with
  | nil => simp [stringifyOids, getKey]
  | cons kv rest ih =>
      obtain ⟨k1, v1⟩ := kv
      by_cases h : k1 = k
      · simp [stringifyOids, getKey, h]
      · simpa [stringifyOids, getKey, h] using ih

theorem stringifyOids_no_oid (d : Doc) :
    ∀ kv ∈ stringifyOids d, isOid kv.2 = false := by
  intro kv hkv
  simp only [stringifyOids, List.mem_map] at hkv
  obtain ⟨⟨k0, v0⟩, _, heq⟩ := hkv
  rw [← heq]
  exact isOid_strOidVal v0

theorem stringifyOids_id_of_no_oid (d : Doc)
    (h : ∀ kv ∈ d, isOid kv.2 = false) : stringifyOids d = d := by
  induction d with
  | nil => rfl
  | cons kv rest ih =>
      obtain ⟨k1, v1⟩ := kv
      have h1 := h (k1, v1) (List.mem_cons_self _ _)
      have h2 : ∀ kv ∈ rest, isOid kv.2 = false :=
        fun kv hm => h kv (List.mem_cons_of_mem _ hm)
      simp only [stringifyOids, List.map_cons] at ih ⊢
      rw [strOidVal_id v1 h1, ih h2]

/-- A helper: a document with no `_id` field and no ObjectId values is a
fixed point of `to_str_id`. -/
theorem to_str_id_eq_self (d : Doc) (hkey : getKey d "_id" = none)
    (hnooid : ∀ kv ∈ d, isOid kv.2 = false) : to_str_id d = d := by
  by_cases hd : d = []
  · simp [to_str_id, hd]
  · simp only [to_str_id, if_neg hd, hkey]
    exact stringifyOids_id_of_no_oid d hnooid

/-- A helper: the output of `to_str_id` on a key-distinct document has no
`_id` field. -/
theorem to_str_id_no_id_key (doc : Doc) (h : keysNodup doc) :
    getKey (to_str_id doc) "_id" = none := by
  by_cases hd : doc = []
  · simp [to_str_id, hd, getKey]
  · simp only [to_str_id, if_neg hd]
    cases hid : getKey doc "_id" with
    | none => rw [getKey_stringifyOids, hid]; rfl
    | some v =>
        rw [getKey_stringifyOids,
          getKey_setKey_ne _ _ _ _ (by decide),
          getKey_eraseKey_self _ _ h]
        rfl

/-- A helper: the output of `to_str_id` has no ObjectId values. -/
theorem to_str_id_no_oid (doc : Doc) :
    ∀ kv ∈ to_str_id doc, isOid kv.2 = false := by
  by_cases hd : doc = []
  · simp [to_str_id, hd]
  · simp only [to_str_id, if_neg hd]
    cases getKey doc "_id" with
    | none => exact stringifyOids_no_oid _
    | some v => exact stringifyOids_no_oid _

/-- C4: the ID normalization utility `to_str_id` is idempotent on every
document (whose keys are distinct, as in every Python dict) and total, and
a document with no `_id` field and no ObjectId values passes through
unchanged. -/
theorem to_str_id_idempotent_and_passthrough (doc : Doc) (h : keysNodup doc) :
    to_str_id (to_str_id doc) = to_str_id doc ∧
    ((getKey doc "_id" = none ∧ ∀ kv ∈ doc, isOid kv.2 = false) →
      to_str_id doc = doc) := by
  constructor
  · exact to_str_id_eq_self _ (to_str_id_no_id_key doc h) (to_str_id_no_oid doc)
  · intro hpass
    exact to_str_id_eq_self doc hpass.1 hpass.2

/-- C4 witness: the theorem applied to a concrete two-field document. -/
theorem to_str_id_idempotent_and_passthrough_witness :
    keysNodup [("phone", BVal.str "p"), ("is_verified", BVal.bool true)] ∧
    (to_str_id (to_str_id [("phone", BVal.str "p"), ("is_verified", BVal.bool true)]) =
        to_str_id [("phone", BVal.str "p"), ("is_verified", BVal.bool true)] ∧
      ((getKey [("phone", BVal.str "p"), ("is_verified", BVal.bool true)] "_id" = none ∧
          ∀ kv ∈ [("phone", BVal.str "p"), ("is_verified", BVal.bool true)], isOid kv.2 = false) →
        to_str_id [("phone", BVal.str "p"), ("is_verified", BVal.bool true)] =
          [("phone", BVal.str "p"), ("is_verified", BVal.bool true)])) :=
  ⟨by unfold keysNodup; decide,
   to_str_id_idempotent_and_passthrough
     [("phone", BVal.str "p"), ("is_verified", BVal.bool true)]
     (by unfold keysNodup; decide)⟩

theorem Heap.read_write_ne (h : Heap) (rd r : Nat) (d : Doc) (hne : r ≠ rd) :
    (h.write rd d).read r = h.read r := by
  simp only [Heap.read, Heap.write]
  rw [List.getElem?_set_ne (fun hh => hne hh.symm)]

theorem Heap.read_alloc_lt (h : Heap) (d : Doc) (r : Nat)
    (hr : r < h.cells.length) : ((h.alloc d).1).read r = h.read r := by
  simp only [Heap.read, Heap.alloc]
  rw [List.getElem?_append_left hr]

theorem idPopStep_read_ne (rd : Nat) (h : Heap) (r : Nat) (hne : r ≠ rd) :
    (idPopStep rd h).read r = h.read r := by
  unfold idPopStep
  cases getKey (h.read rd) "_id" with
  | none => rfl
  | some v => exact Heap.read_write_ne _ _ _ _ hne

theorem stringifyLoop_read_ne (rd : Nat) (items : List (String × BVal))
    (h : Heap) (r : Nat) (hne : r ≠ rd) :
    (stringifyLoop rd items h).read r = h.read r := by
  induction items generalizing h with
  | nil => rfl
  | cons kv rest ih =>
      obtain ⟨k1, v1⟩ := kv
      simp only [stringifyLoop, List.foldl_cons] at ih ⊢
      rw [ih]
      cases v1 <;> first
        | rfl
        | exact Heap.read_write_ne _ _ _ _ hne

/-- C9: `to_str_id` never mutates its argument: run against the heap, the
dict object passed in holds the same mapping after the call, because every
write of the body targets the freshly allocated copy. -/
theorem to_str_id_impl_preserves_input (h : Heap) (r : Nat) :
    ((to_str_id_impl h r).1).read r = h.read r := by
  by_cases hd : h.read r = []
  · simp [to_str_id_impl, hd]
  · have hr : r < h.cells.length := by
      by_contra hge
      exact hd (by
        simp only [Heap.read]
        rw [List.getElem?_eq_none (by omega)]
        rfl)
    have hne : r ≠ (h.alloc (h.read r)).2 := by
      simp only [Heap.alloc]
      omega
    simp only [to_str_id_impl, if_neg hd]
    rw [stringifyLoop_read_ne _ _ _ _ hne, idPopStep_read_ne _ _ _ hne,
      Heap.read_alloc_lt _ _ _ hr]

/-- A helper: `find_one` fails exactly when no document matches. -/
theorem find_one_eq_none (coll : List Doc) (f : String × BVal)
    (h : ∀ d ∈ coll, getKey d f.1 ≠ some f.2) : find_one coll f = none := by
  simp only [find_one, List.find?_eq_none]
  intro x hx
  simp only [matchesF, beq_iff_eq]
  exact h x hx

/-- C2: POST /auth/verify with a submitted code other than the fixed "1234"
fails with the 400 invalid-code status for every phone and every store
content, user present or not, and leaves the store unchanged. -/
theorem verify_otp_wrong_code_400 (db : DB) (phone otp : String)
    (h : otp ≠ "1234") :
    verify_otp (some db) phone otp = (some db, .err 400 "Invalid OTP") := by
  simp [verify_otp, h]

/-- C2 witness: wrong code "9999" against a store that does hold a user with
the submitted phone. -/
theorem verify_otp_wrong_code_400_witness :
    ("9999" : String) ≠ "1234" ∧
    verify_otp
        (some ⟨[[("phone", BVal.str "x"), ("_id", BVal.oid "a")]], [], [], 1, 0⟩)
        "x" "9999" =
      (some ⟨[[("phone", BVal.str "x"), ("_id", BVal.oid "a")]], [], [], 1, 0⟩,
       .err 400 "Invalid OTP") :=
  ⟨by decide,
   verify_otp_wrong_code_400
     ⟨[[("phone", BVal.str "x"), ("_id", BVal.oid "a")]], [], [], 1, 0⟩
     "x" "9999" (by decide)⟩

/-- C5 counterexample: with the store unavailable, GET /restaurants/{id}
fails with status 404 ("Not found"), not with the 500 the claim asserts;
GET /products/{id} likewise. -/
theorem store_unavailable_detail_is_404_not_500 :
    get_restaurant none "abc" = .err 404 "Not found" ∧
    get_product none "abc" = .err 404 "Not found" ∧
    Resp.statusCode (get_restaurant none "abc") ≠ 500 ∧
    Resp.statusCode (get_product none "abc") ≠ 500 := by
  decide

/-- C5 (amended): with the store unavailable, the mutating endpoints
(send-otp, verify) fail with 500, the detail endpoints (restaurant/product
by id) fail with 404, and the list endpoints degrade to empty results. -/
theorem store_unavailable_behaviour (phone otp rid pid rid2 : String) :
    send_otp none phone = (none, .err 500 "Database not configured") ∧
    verify_otp none phone otp = (none, .err 500 "Database not configured") ∧
    get_restaurant none rid = .err 404 "Not found" ∧
    get_product none pid = .err 404 "Not found" ∧
    list_restaurants none = .restListOk [] ∧
    list_products none = .prodListOk [] ∧
    get_restaurant_products none rid2 = .prodListOk [] :=
  ⟨rfl, rfl, rfl, rfl, rfl, rfl, rfl⟩

/-- C6: with the store available, a detail fetch whose identifier matches no
document — the filter value being the parsed ObjectId when the string is
24 hex characters and the literal string otherwise — returns the 404
not-found status, never a 500 or a 400, for both collections. -/
theorem detail_unknown_id_404 (db : DB) (rid pid : String)
    (hr : ∀ d ∈ db.restaurant, getKey d "_id" ≠ some (idFilterVal rid))
    (hp : ∀ d ∈ db.product, getKey d "_id" ≠ some (idFilterVal pid)) :
    get_restaurant (some db) rid = .err 404 "Restaurant not found" ∧
    get_product (some db) pid = .err 404 "Product not found" := by
  constructor
  · simp [get_restaurant,
      find_one_eq_none db.restaurant ("_id", idFilterVal rid) hr]
  · simp [get_product,
      find_one_eq_none db.product ("_id", idFilterVal pid) hp]

/-- C6 witness: a malformed (non-hex) identifier against a store with one
restaurant and one product document. -/
theorem detail_unknown_id_404_witness :
    (∀ d ∈ [[("_id", BVal.oid "a1"), ("name", BVal.str "r")]],
        getKey d "_id" ≠ some (idFilterVal "not-an-objectid")) ∧
    (∀ d ∈ [[("_id", BVal.oid "b2"), ("title", BVal.str "p")]],
        getKey d "_id" ≠ some (idFilterVal "zzz")) ∧
    (get_restaurant
        (some ⟨[], [[("_id", BVal.oid "a1"), ("name", BVal.str "r")]],
               [[("_id", BVal.oid "b2"), ("title", BVal.str "p")]], 2, 0⟩)
        "not-an-objectid" = .err 404 "Restaurant not found" ∧
      get_product
        (some ⟨[], [[("_id", BVal.oid "a1"), ("name", BVal.str "r")]],
               [[("_id", BVal.oid "b2"), ("title", BVal.str "p")]], 2, 0⟩)
        "zzz" = .err 404 "Product not found") :=
  ⟨by decide, by decide,
   detail_unknown_id_404
     ⟨[], [[("_id", BVal.oid "a1"), ("name", BVal.str "r")]],
      [[("_id", BVal.oid "b2"), ("title", BVal.str "p")]], 2, 0⟩
     "not-an-objectid" "zzz" (by decide) (by decide)⟩

/-- C8: the startup seed routine is idempotent across restarts: when both
the restaurant and the product collection are non-empty it performs no
writes, returning the store exactly as it was. -/
theorem seed_data_idempotent (db : DB) (hr : db.restaurant ≠ [])
    (hp : db.product ≠ []) : seed_data (some db) = some (some db) := by
  simp [seed_data, seedConnected, hr, hp]

/-- C8 witness: a store holding one restaurant and one product document. -/
theorem seed_data_idempotent_witness :
    ([[("name", BVal.str "r")]] : List Doc) ≠ [] ∧
    ([[("title", BVal.str "p")]] : List Doc) ≠ [] ∧
    seed_data (some ⟨[], [[("name", BVal.str "r")]], [[("title", BVal.str "p")]], 7, 3⟩) =
      some (some ⟨[], [[("name", BVal.str "r")]], [[("title", BVal.str "p")]], 7, 3⟩) :=
  ⟨by decide, by decide,
   seed_data_idempotent
     ⟨[], [[("name", BVal.str "r")]], [[("title", BVal.str "p")]], 7, 3⟩
     (by decide) (by decide)⟩

/-- C10: POST /auth/verify is atomic on failure: whenever the handler
responds with any error status (wrong code, unknown phone, or a malformed
user record), the store — in particular the user collection — is returned
unchanged. -/
theorem verify_otp_failure_preserves_state (db : DB) (phone otp : String)
    (s : Nat) (det : String)
    (h : (verify_otp (some db) phone otp).2 = .err s det) :
    (verify_otp (some db) phone otp).1 = some db := by
  by_cases ho : otp = "1234"
  · subst ho
    cases hf : find_one db.user ("phone", BVal.str (pyStrip phone)) with
    | none => simp [verify_otp, hf]
    | some user =>
        cases hid : getKey user "_id" with
        | none => simp [verify_otp, hf, hid]
        | some uid =>
            exfalso
            simp only [verify_otp, hf, hid, ne_eq, not_true_eq_false,
              if_false] at h
            revert h
            cases find_one
                (update_one db.user ("_id", uid)
                  [("is_verified", BVal.bool true),
                   ("updated_at", BVal.timev db.clock)])
                ("_id", uid) <;> simp
  · simp [verify_otp, ho]

/-- C10 witness: wrong code against an empty user collection. -/
theorem verify_otp_failure_preserves_state_witness :
    ((verify_otp (some ⟨[], [], [], 0, 0⟩) "x" "bad").2 =
        .err 400 "Invalid OTP") ∧
    (verify_otp (some ⟨[], [], [], 0, 0⟩) "x" "bad").1 = some ⟨[], [], [], 0, 0⟩ :=
  ⟨by decide,
   verify_otp_failure_preserves_state ⟨[], [], [], 0, 0⟩ "x" "bad"
     400 "Invalid OTP" (by decide)⟩

theorem find_one_mem {coll : List Doc} {f : String × BVal} {d : Doc}
    (h : find_one coll f = some d) : d ∈ coll :=
  List.mem_of_find?_eq_some h

theorem find_one_cons_pos {x : Doc} {xs : List Doc} {f : String × BVal}
    (h : matchesF x f = true) : find_one (x :: xs) f = some x := by
  simp [find_one, List.find?_cons_of_pos, h]

theorem find_one_cons_neg {x : Doc} {xs : List Doc} {f : String × BVal}
    (h : ¬ matchesF x f = true) : find_one (x :: xs) f = find_one xs f := by
  simp [find_one, List.find?_cons_of_neg, h]

theorem find_one_isSome_of_mem (coll : List Doc) (f : String × BVal) (d : Doc)
    (hd : d ∈ coll) (hm : getKey d f.1 = some f.2) :
    (find_one coll f).isSome := by
  simp only [find_one, List.find?_isSome]
  exact ⟨d, hd, by simp [matchesF, hm]⟩

theorem getKey_applySets_ne :
    ∀ (sets : List (String × BVal)) (d : Doc) (k : String),
      (∀ kv ∈ sets, kv.1 ≠ k) → getKey (applySets d sets) k = getKey d k
  | [], _, _, _ => rfl
  | kv :: rest, d, k, h => by
      simp only [applySets, List.foldl_cons]
      have hrec := getKey_applySets_ne rest (setKey d kv.1 kv.2) k
        (fun kv2 hm => h kv2 (List.mem_cons_of_mem _ hm))
      simp only [applySets] at hrec
      rw [hrec]
      exact getKey_setKey_ne d kv.1 k kv.2
        (Ne.symm (h kv (List.mem_cons_self _ _)))

theorem getKey_applySets_two_fst (d : Doc) (k1 k2 : String) (v1 v2 : BVal)
    (hne : k1 ≠ k2) :
    getKey (applySets d [(k1, v1), (k2, v2)]) k1 = some v1 := by
  show getKey (setKey (setKey d k1 v1) k2 v2) k1 = some v1
  rw [getKey_setKey_ne _ _ _ _ hne, getKey_setKey_eq]

theorem getKey_applySets_two_snd (d : Doc) (k1 k2 : String) (v1 v2 : BVal) :
    getKey (applySets d [(k1, v1), (k2, v2)]) k2 = some v2 := by
  show getKey (setKey (setKey d k1 v1) k2 v2) k2 = some v2
  rw [getKey_setKey_eq]

/-- Updating by `_id` and re-fetching by the same `_id` returns exactly the
updated document (the first `_id` match), as long as the update does not
touch `_id`. -/
theorem find_one_update_self (coll : List Doc) (uid : BVal)
    (sets : List (String × BVal)) (hset : ∀ kv ∈ sets, kv.1 ≠ "_id")
    (h : (find_one coll ("_id", uid)).isSome) :
    find_one (update_one coll ("_id", uid) sets) ("_id", uid) =
      (find_one coll ("_id", uid)).map (fun d => applySets d sets) := by
  induction coll with
  | nil => simp [find_one] at h
  | cons d rest ih =>
      by_cases hm : matchesF d ("_id", uid) = true
      · have hm2 : matchesF (applySets d sets) ("_id", uid) = true := by
          simp only [matchesF] at hm ⊢
          rw [getKey_applySets_ne sets d "_id" hset]
          exact hm
        simp only [update_one, if_pos hm]
        rw [find_one_cons_pos hm2, find_one_cons_pos hm]
        rfl
      · simp only [update_one, if_neg hm]
        rw [find_one_cons_neg hm] at h
        rw [find_one_cons_neg hm, find_one_cons_neg hm]
        exact ih h

/-- A lookup by some other field still succeeds after an `update_one` that
does not touch that field; the found document is the original first match or
its updated version. -/
theorem find_one_update_of_isSome (coll : List Doc) (fil : String × BVal)
    (sets : List (String × BVal)) (key : String) (v : BVal)
    (hset : ∀ kv ∈ sets, kv.1 ≠ key)
    (h : (find_one coll (key, v)).isSome) :
    ∃ d u, find_one coll (key, v) = some d ∧
      find_one (update_one coll fil sets) (key, v) = some u ∧
      (u = d ∨ u = applySets d sets) := by
  induction coll with
  | nil => simp [find_one] at h
  | cons d rest ih =>
      by_cases hm : matchesF d fil = true
      · simp only [update_one, if_pos hm]
        by_cases hk : matchesF d (key, v) = true
        · have hk2 : matchesF (applySets d sets) (key, v) = true := by
            simp only [matchesF] at hk ⊢
            rw [getKey_applySets_ne sets d key hset]
            exact hk
          exact ⟨d, applySets d sets, find_one_cons_pos hk,
            find_one_cons_pos hk2, Or.inr rfl⟩
        · have hk2 : ¬ matchesF (applySets d sets) (key, v) = true := by
            simp only [matchesF] at hk ⊢
            rw [getKey_applySets_ne sets d key hset]
            exact hk
          rw [find_one_cons_neg hk] at h
          obtain ⟨w, hw⟩ := Option.isSome_iff_exists.mp h
          exact ⟨w, w, by rw [find_one_cons_neg hk]; exact hw,
            by rw [find_one_cons_neg hk2]; exact hw, Or.inl rfl⟩
      · simp only [update_one, if_neg hm]
        by_cases hk : matchesF d (key, v) = true
        · exact ⟨d, d, find_one_cons_pos hk, find_one_cons_pos hk, Or.inl rfl⟩
        · rw [find_one_cons_neg hk] at h
          obtain ⟨d1, u1, h1, h2, h3⟩ := ih h
          exact ⟨d1, u1, by rw [find_one_cons_neg hk]; exact h1,
            by rw [find_one_cons_neg hk]; exact h2, h3⟩

/-- Fields other than `_id`/`id` that hold a non-ObjectId value survive
`to_str_id` unchanged. -/
theorem getKey_to_str_id_keep (d : Doc) (k : String) (v : BVal)
    (hk1 : k ≠ "_id") (hk2 : k ≠ "id") (hv : isOid v = false)
    (h : getKey d k = some v) : getKey (to_str_id d) k = some v := by
  have hd : d ≠ [] := by
    intro hh
    rw [hh] at h
    simp [getKey] at h
  simp only [to_str_id, if_neg hd]
  cases hid : getKey d "_id" with
  | none =>
      rw [getKey_stringifyOids, h]
      simp [strOidVal_id v hv]
  | some w =>
      rw [getKey_stringifyOids, getKey_setKey_ne _ _ _ _ hk2,
        getKey_eraseKey_ne _ _ _ hk1, h]
      simp [strOidVal_id v hv]

/-- Once some user carries the submitted phone and an `_id`, the verify
handler succeeds and the user record it returns has `is_verified = true`. -/
theorem verify_success_core (db1 : DB) (phoneRaw : String) (u1 : Doc)
    (hfind : find_one db1.user ("phone", BVal.str (pyStrip phoneRaw)) = some u1)
    (uid : BVal) (huid : getKey u1 "_id" = some uid) :
    ∃ u, (verify_otp (some db1) phoneRaw "1234").2 = .verifyOk u ∧
      getKey u "is_verified" = some (.bool true) := by
  have hset : ∀ kv ∈ ([("is_verified", BVal.bool true),
      ("updated_at", BVal.timev db1.clock)] : List (String × BVal)),
      kv.1 ≠ "_id" := by
    intro kv hm
    fin_cases hm <;> simp
  have hw : (find_one db1.user ("_id", uid)).isSome :=
    find_one_isSome_of_mem db1.user ("_id", uid) u1 (find_one_mem hfind) huid
  obtain ⟨w, hww⟩ := Option.isSome_iff_exists.mp hw
  have hfetch := find_one_update_self db1.user uid
    [("is_verified", BVal.bool true), ("updated_at", BVal.timev db1.clock)]
    hset hw
  rw [hww] at hfetch
  refine ⟨to_str_id (applySets w
    [("is_verified", BVal.bool true), ("updated_at", BVal.timev db1.clock)]),
    ?_, ?_⟩
  · simp only [verify_otp, hfind, huid, hfetch]
    simp
  · exact getKey_to_str_id_keep _ _ _ (by decide) (by decide) rfl
      (getKey_applySets_two_fst w "is_verified" "updated_at"
        (BVal.bool true) (BVal.timev db1.clock) (by decide))

theorem find_one_append_none (l1 l2 : List Doc) (f : String × BVal)
    (h : find_one l1 f = none) : find_one (l1 ++ l2) f = find_one l2 f := by
  simp only [find_one, List.find?_append]
  rw [show l1.find? (fun d => matchesF d f) = none from h, Option.none_or]

/-- C1: for every phone that is non-empty after trimming, with the store
available and every stored user carrying an `_id` (as the store guarantees),
POST /auth/send-otp followed by POST /auth/verify with the fixed code
"1234" succeeds and returns a user record whose `is_verified` field is
true. -/
theorem send_then_verify_verified (db : DB) (phone : String)
    (hph : pyStrip phone ≠ "")
    (hid : ∀ d ∈ db.user, (getKey d "_id").isSome) :
    (send_otp (some db) phone).2 =
      .sendOk "1234" "OTP generated. Use 1234 for demo." ∧
    ∃ u, (verify_otp ((send_otp (some db) phone).1) phone "1234").2 =
        .verifyOk u ∧
      getKey u "is_verified" = some (.bool true) := by
  cases hf : find_one db.user ("phone", BVal.str (pyStrip phone)) with
  | none =>
      have hsend : send_otp (some db) phone =
          (some { db with
              user := db.user ++
                [setKey
                  [("phone", BVal.str (pyStrip phone)), ("name", BVal.null),
                   ("is_verified", BVal.bool false),
                   ("last_login", BVal.str (isoStr db.clock)),
                   ("created_at", BVal.timev db.clock),
                   ("updated_at", BVal.timev db.clock)]
                  "_id" (BVal.oid (genOid db.nextId))],
              nextId := db.nextId + 1, clock := db.clock + 1 },
           .sendOk "1234" "OTP generated. Use 1234 for demo.") := by
        simp [send_otp, hph, hf, insertDoc]
      refine ⟨by rw [hsend], ?_⟩
      rw [hsend]
      have hphkey : getKey
          (setKey
            [("phone", BVal.str (pyStrip phone)), ("name", BVal.null),
             ("is_verified", BVal.bool false),
             ("last_login", BVal.str (isoStr db.clock)),
             ("created_at", BVal.timev db.clock),
             ("updated_at", BVal.timev db.clock)]
            "_id" (BVal.oid (genOid db.nextId))) "phone" =
          some (BVal.str (pyStrip phone)) := by
        rw [getKey_setKey_ne _ "_id" "phone" _ (by decide)]
        simp [getKey]
      have hfind : find_one
          (db.user ++
            [setKey
              [("phone", BVal.str (pyStrip phone)), ("name", BVal.null),
               ("is_verified", BVal.bool false),
               ("last_login", BVal.str (isoStr db.clock)),
               ("created_at", BVal.timev db.clock),
               ("updated_at", BVal.timev db.clock)]
              "_id" (BVal.oid (genOid db.nextId))])
          ("phone", BVal.str (pyStrip phone)) =
          some (setKey
            [("phone", BVal.str (pyStrip phone)), ("name", BVal.null),
             ("is_verified", BVal.bool false),
             ("last_login", BVal.str (isoStr db.clock)),
             ("created_at", BVal.timev db.clock),
             ("updated_at", BVal.timev db.clock)]
            "_id" (BVal.oid (genOid db.nextId))) := by
        rw [find_one_append_none _ _ _ hf]
        refine find_one_cons_pos ?_
        simp [matchesF, hphkey]
      exact verify_success_core _ phone _ hfind _ (getKey_setKey_eq _ _ _)
  | some u0 =>
      obtain ⟨uid0, huid0⟩ :=
        Option.isSome_iff_exists.mp (hid u0 (find_one_mem hf))
      have hsend : send_otp (some db) phone =
          (some { db with
              user := update_one db.user ("_id", uid0)
                [("is_verified", BVal.bool false),
                 ("last_login", BVal.str (isoStr db.clock))],
              clock := db.clock + 1 },
           .sendOk "1234" "OTP generated. Use 1234 for demo.") := by
        simp [send_otp, hph, hf, huid0]
      refine ⟨by rw [hsend], ?_⟩
      rw [hsend]
      have hs : (find_one db.user ("phone", BVal.str (pyStrip phone))).isSome := by
        rw [hf]
        rfl
      obtain ⟨d1, u1, hd1, hu1, hcase⟩ :=
        find_one_update_of_isSome db.user ("_id", uid0)
          [("is_verified", BVal.bool false),
           ("last_login", BVal.str (isoStr db.clock))]
          "phone" (BVal.str (pyStrip phone))
          (by intro kv hm; fin_cases hm <;> simp) hs
      have hidu1 : (getKey u1 "_id").isSome := by
        rcases hcase with hc | hc
        · rw [hc]
          exact hid d1 (find_one_mem hd1)
        · rw [hc,
            getKey_applySets_ne _ _ _ (by intro kv hm; fin_cases hm <;> simp)]
          exact hid d1 (find_one_mem hd1)
      obtain ⟨uid1, huid1⟩ := Option.isSome_iff_exists.mp hidu1
      exact verify_success_core _ phone u1 hu1 uid1 huid1

/-- C1 witness: phone " 555-0100" against an empty store. -/
theorem send_then_verify_verified_witness :
    pyStrip (" 555-0100" : String) ≠ "" ∧
    (∀ d ∈ (([] : List Doc) : List Doc), (getKey d "_id").isSome) ∧
    ((send_otp (some ⟨[], [], [], 0, 0⟩) " 555-0100").2 =
        .sendOk "1234" "OTP generated. Use 1234 for demo." ∧
      ∃ u, (verify_otp ((send_otp (some ⟨[], [], [], 0, 0⟩) " 555-0100").1)
          " 555-0100" "1234").2 = .verifyOk u ∧
        getKey u "is_verified" = some (.bool true)) :=
  ⟨by decide, by decide,
   send_then_verify_verified ⟨[], [], [], 0, 0⟩ " 555-0100"
     (by decide) (by decide)⟩

theorem hexChar_inj_fin : ∀ (a b : Fin 16), hexChar a.1 = hexChar b.1 → a = b := by
  decide

theorem map_hexChar_inj :
    ∀ (l1 l2 : List Nat), (∀ x ∈ l1, x < 16) → (∀ x ∈ l2, x < 16) →
      l1.map hexChar = l2.map hexChar → l1 = l2
  | [], [], _, _, _ => rfl
  | [], _ :: _, _, _, he => by simp at he
  | _ :: _, [], _, _, he => by simp at he
  | a :: t1, b :: t2, h1, h2, he => by
      simp only [List.map_cons, List.cons.injEq] at he
      have ha : a < 16 := h1 a (List.mem_cons_self _ _)
      have hb : b < 16 := h2 b (List.mem_cons_self _ _)
      have hab : a = b := by
        have := hexChar_inj_fin ⟨a, ha⟩ ⟨b, hb⟩ he.1
        exact congrArg Fin.val this
      have ht := map_hexChar_inj t1 t2
        (fun x hx => h1 x (List.mem_cons_of_mem _ hx))
        (fun x hx => h2 x (List.mem_cons_of_mem _ hx)) he.2
      rw [hab, ht]

/-- Distinct id counters yield distinct ObjectId strings: the store never
hands out the same identifier twice. -/
theorem genOid_inj (m n : Nat) (h : genOid m = genOid n) : m = n := by
  have hd : (Nat.digits 16 m).map hexChar = (Nat.digits 16 n).map hexChar := by
    simpa using congrArg String.data h
  exact Nat.digits_inj_iff.mp
    (map_hexChar_inj _ _
      (fun x hx => Nat.digits_lt_base (by norm_num) hx)
      (fun x hx => Nat.digits_lt_base (by norm_num) hx) hd)

theorem length_update_one (coll : List Doc) (f : String × BVal)
    (sets : List (String × BVal)) :
    (update_one coll f sets).length = coll.length := by
  induction coll with
  | nil => rfl
  | cons d rest ih =>
      by_cases hm : matchesF d f = true
      · simp [update_one, hm]
      · simp [update_one, hm, ih]

theorem filter_matches_update_one (coll : List Doc) (fil : String × BVal)
    (sets : List (String × BVal)) (key : String) (v : BVal)
    (hset : ∀ kv ∈ sets, kv.1 ≠ key) :
    ((update_one coll fil sets).filter
        (fun d => matchesF d (key, v))).length =
      (coll.filter (fun d => matchesF d (key, v))).length := by
  induction coll with
  | nil => rfl
  | cons d rest ih =>
      by_cases hm : matchesF d fil = true
      · have hpres : matchesF (applySets d sets) (key, v) = matchesF d (key, v) := by
          simp only [matchesF]
          rw [getKey_applySets_ne sets d key hset]
        simp only [update_one, if_pos hm, List.filter_cons, hpres]
        cases matchesF d (key, v) <;> simp
      · simp only [update_one, if_neg hm, List.filter_cons]
        cases matchesF d (key, v) <;> simp [ih]

theorem idsOf_update_one (coll : List Doc) (fil : String × BVal)
    (sets : List (String × BVal)) (hset : ∀ kv ∈ sets, kv.1 ≠ "_id") :
    (update_one coll fil sets).map (fun d => getKey d "_id") =
      coll.map (fun d => getKey d "_id") := by
  induction coll with
  | nil => rfl
  | cons d rest ih =>
      by_cases hm : matchesF d fil = true
      · simp only [update_one, if_pos hm, List.map_cons]
        rw [getKey_applySets_ne sets d "_id" hset]
      · simp only [update_one, if_neg hm, List.map_cons, ih]

theorem mem_update_one (coll : List Doc) (fil : String × BVal)
    (sets : List (String × BVal)) (x : Doc)
    (hx : x ∈ update_one coll fil sets) :
    x ∈ coll ∨ ∃ d ∈ coll, x = applySets d sets := by
  induction coll with
  | nil => simp [update_one] at hx
  | cons d rest ih =>
      by_cases hm : matchesF d fil = true
      · simp only [update_one, if_pos hm, List.mem_cons] at hx
        rcases hx with hx | hx
        · exact Or.inr ⟨d, List.mem_cons_self _ _, hx⟩
        · exact Or.inl (List.mem_cons_of_mem _ hx)
      · simp only [update_one, if_neg hm, List.mem_cons] at hx
        rcases hx with hx | hx
        · exact Or.inl (by rw [hx]; exact List.mem_cons_self _ _)
        · rcases ih hx with h1 | ⟨d1, hd1, he⟩
          · exact Or.inl (List.mem_cons_of_mem _ h1)
          · exact Or.inr ⟨d1, List.mem_cons_of_mem _ hd1, he⟩

theorem filter_eq_nil_of_find_one_none (coll : List Doc) (f : String × BVal)
    (h : find_one coll f = none) :
    coll.filter (fun d => matchesF d f) = [] := by
  simp only [find_one, List.find?_eq_none] at h
  exact List.filter_eq_nil_iff.mpr h

theorem find_one_matches {coll : List Doc} {f : String × BVal} {d : Doc}
    (h : find_one coll f = some d) : matchesF d f = true :=
  List.find?_some (p := fun x => matchesF x f) h

theorem filter_length_pos_of_find_one_some (coll : List Doc)
    (f : String × BVal) (d : Doc) (h : find_one coll f = some d) :
    0 < (coll.filter (fun x => matchesF x f)).length :=
  List.length_pos_of_mem
    (List.mem_filter.mpr ⟨find_one_mem h, find_one_matches h⟩)

theorem find_one_isSome_of_filter_pos (coll : List Doc) (f : String × BVal)
    (h : 0 < (coll.filter (fun d => matchesF d f)).length) :
    (find_one coll f).isSome := by
  obtain ⟨x, hx⟩ := List.exists_mem_of_length_pos h
  have hm := List.mem_filter.mp hx
  simp only [find_one, List.find?_isSome]
  exact ⟨x, hm.1, hm.2⟩

/-- With pairwise-distinct stored ids, updating by the `_id` of the first
document matching some other filter updates exactly that document, and a
re-query by the other filter returns the updated document. -/
theorem find_one_update_by_id_of_found (coll : List Doc) (key : String)
    (v : BVal) (u1 : Doc)
    (hfind : find_one coll (key, v) = some u1)
    (uid : BVal) (huid : getKey u1 "_id" = some uid)
    (hnd : (coll.map (fun d => getKey d "_id")).Nodup)
    (sets : List (String × BVal))
    (hset : ∀ kv ∈ sets, kv.1 ≠ key) :
    find_one (update_one coll ("_id", uid) sets) (key, v) =
      some (applySets u1 sets) := by
  induction coll with
  | nil => simp [find_one] at hfind
  | cons d rest ih =>
      simp only [List.map_cons, List.nodup_cons] at hnd
      by_cases hk : matchesF d (key, v) = true
      · rw [find_one_cons_pos hk] at hfind
        have hdu : d = u1 := by injection hfind
        subst hdu
        have hm : matchesF d ("_id", uid) = true := by
          simp [matchesF, huid]
        have hk2 : matchesF (applySets d sets) (key, v) = true := by
          simp only [matchesF] at hk ⊢
          rw [getKey_applySets_ne sets d key hset]
          exact hk
        simp only [update_one, if_pos hm]
        exact find_one_cons_pos hk2
      · rw [find_one_cons_neg hk] at hfind
        have hm : ¬ matchesF d ("_id", uid) = true := by
          intro hmm
          simp only [matchesF, beq_iff_eq] at hmm
          exact hnd.1 (by
            rw [hmm, ← huid]
            exact List.mem_map_of_mem _ (find_one_mem hfind))
        simp only [update_one, if_neg hm]
        rw [find_one_cons_neg hk]
        exact ih hfind hnd.2

/-- Store invariant: every stored user's `_id` is a store-generated ObjectId
older than the generation counter. -/
def userIdsFresh (db : DB) : Prop :=
  ∀ d ∈ db.user, ∃ k, k < db.nextId ∧ getKey d "_id" = some (.oid (genOid k))

/-- Store invariant: stored user ids are pairwise distinct. -/
def userIdsNodup (db : DB) : Prop :=
  (db.user.map (fun d => getKey d "_id")).Nodup

/-- After one successful send-otp call the two store invariants still hold
and exactly one user carries the submitted phone. -/
theorem send_otp_first_call (db : DB) (phone : String)
    (hph : pyStrip phone ≠ "")
    (hfresh : userIdsFresh db) (hnd : userIdsNodup db)
    (hone : (db.user.filter
        (fun d => matchesF d ("phone", BVal.str (pyStrip phone)))).length ≤ 1) :
    ∃ db1, (send_otp (some db) phone).1 = some db1 ∧
      db1.clock = db.clock + 1 ∧
      userIdsFresh db1 ∧ userIdsNodup db1 ∧
      (db1.user.filter
          (fun d => matchesF d ("phone", BVal.str (pyStrip phone)))).length = 1 := by
  cases hf : find_one db.user ("phone", BVal.str (pyStrip phone)) with
  | none =>
      have hphkey : getKey
          (setKey
            [("phone", BVal.str (pyStrip phone)), ("name", BVal.null),
             ("is_verified", BVal.bool false),
             ("last_login", BVal.str (isoStr db.clock)),
             ("created_at", BVal.timev db.clock),
             ("updated_at", BVal.timev db.clock)]
            "_id" (BVal.oid (genOid db.nextId))) "phone" =
          some (BVal.str (pyStrip phone)) := by
        rw [getKey_setKey_ne _ "_id" "phone" _ (by decide)]
        simp [getKey]
      refine ⟨{ db with
          user := db.user ++
            [setKey
              [("phone", BVal.str (pyStrip phone)), ("name", BVal.null),
               ("is_verified", BVal.bool false),
               ("last_login", BVal.str (isoStr db.clock)),
               ("created_at", BVal.timev db.clock),
               ("updated_at", BVal.timev db.clock)]
              "_id" (BVal.oid (genOid db.nextId))],
          nextId := db.nextId + 1, clock := db.clock + 1 }, ?_, rfl, ?_, ?_, ?_⟩
      · simp [send_otp, hph, hf, insertDoc]
      · intro d hd
        rcases List.mem_append.mp hd with hold | hnew
        · obtain ⟨k, hk, hkid⟩ := hfresh d hold
          exact ⟨k, Nat.lt_succ_of_lt hk, hkid⟩
        · rw [List.mem_singleton.mp hnew]
          exact ⟨db.nextId, Nat.lt_succ_self _, getKey_setKey_eq _ _ _⟩
      · show (List.map _ (db.user ++ _)).Nodup
        rw [List.map_append, List.nodup_append]
        refine ⟨hnd, List.nodup_singleton _, ?_⟩
        intro a ha hb
        simp only [List.map_cons, List.map_nil, List.mem_singleton] at hb
        obtain ⟨d, hd, hda⟩ := List.mem_map.mp ha
        obtain ⟨k, hk, hkid⟩ := hfresh d hd
        rw [← hda, hkid] at hb
        have : genOid k = genOid db.nextId := by
          have hb2 := hb
          injection hb2 with hb3
          injection hb3
        exact Nat.lt_irrefl db.nextId (genOid_inj k db.nextId this ▸ hk)
      · show (List.filter _ (db.user ++ _)).length = 1
        rw [List.filter_append, filter_eq_nil_of_find_one_none _ _ hf]
        simp [List.filter, matchesF, hphkey]
  | some u0 =>
      obtain ⟨k0, hk0, hid0⟩ := hfresh u0 (find_one_mem hf)
      have hsetph : ∀ kv ∈ ([("is_verified", BVal.bool false),
          ("last_login", BVal.str (isoStr db.clock))] : List (String × BVal)),
          kv.1 ≠ "phone" := by
        intro kv hm
        fin_cases hm <;> simp
      have hsetid : ∀ kv ∈ ([("is_verified", BVal.bool false),
          ("last_login", BVal.str (isoStr db.clock))] : List (String × BVal)),
          kv.1 ≠ "_id" := by
        intro kv hm
        fin_cases hm <;> simp
      refine ⟨{ db with
          user := update_one db.user ("_id", BVal.oid (genOid k0))
            [("is_verified", BVal.bool false),
             ("last_login", BVal.str (isoStr db.clock))],
          clock := db.clock + 1 }, ?_, rfl, ?_, ?_, ?_⟩
      · simp [send_otp, hph, hf, hid0]
      · intro d hd
        rcases mem_update_one _ _ _ _ hd with hold | ⟨d1, hd1, he⟩
        · exact hfresh d hold
        · rw [he, getKey_applySets_ne _ _ _ hsetid]
          exact hfresh d1 hd1
      · show (List.map _ (update_one _ _ _)).Nodup
        rw [idsOf_update_one _ _ _ hsetid]
        exact hnd
      · show (List.filter _ (update_one _ _ _)).length = 1
        rw [filter_matches_update_one _ _ _ _ _ hsetph]
        have hpos := filter_length_pos_of_find_one_some _ _ _ hf
        omega

/-- The second send-otp call on a store that already holds exactly one user
with the phone updates that user in place: no insert, same collection size,
`is_verified` reset to false and `last_login` set to the call time. -/
theorem send_otp_second_call (db1 : DB) (phone : String)
    (hph : pyStrip phone ≠ "")
    (hfresh : userIdsFresh db1) (hnd : userIdsNodup db1)
    (hcount : (db1.user.filter
        (fun d => matchesF d ("phone", BVal.str (pyStrip phone)))).length = 1) :
    ∃ db2,
      send_otp (some db1) phone =
        (some db2, .sendOk "1234" "OTP generated. Use 1234 for demo.") ∧
      db2.user.length = db1.user.length ∧
      (db2.user.filter
          (fun d => matchesF d ("phone", BVal.str (pyStrip phone)))).length = 1 ∧
      ∃ u, find_one db2.user ("phone", BVal.str (pyStrip phone)) = some u ∧
        getKey u "is_verified" = some (.bool false) ∧
        getKey u "last_login" = some (.str (isoStr db1.clock)) := by
  have hs : (find_one db1.user ("phone", BVal.str (pyStrip phone))).isSome :=
    find_one_isSome_of_filter_pos _ _ (by omega)
  obtain ⟨u1, hu1⟩ := Option.isSome_iff_exists.mp hs
  obtain ⟨k1, hk1, hid1⟩ := hfresh u1 (find_one_mem hu1)
  have hsetph : ∀ kv ∈ ([("is_verified", BVal.bool false),
      ("last_login", BVal.str (isoStr db1.clock))] : List (String × BVal)),
      kv.1 ≠ "phone" := by
    intro kv hm
    fin_cases hm <;> simp
  refine ⟨{ db1 with
      user := update_one db1.user ("_id", BVal.oid (genOid k1))
        [("is_verified", BVal.bool false),
         ("last_login", BVal.str (isoStr db1.clock))],
      clock := db1.clock + 1 }, ?_, ?_, ?_, ?_⟩
  · simp [send_otp, hph, hu1, hid1]
  · exact length_update_one _ _ _
  · show (List.filter _ (update_one _ _ _)).length = 1
    rw [filter_matches_update_one _ _ _ _ _ hsetph]
    exact hcount
  · refine ⟨applySets u1
      [("is_verified", BVal.bool false),
       ("last_login", BVal.str (isoStr db1.clock))], ?_, ?_, ?_⟩
    · exact find_one_update_by_id_of_found db1.user "phone"
        (BVal.str (pyStrip phone)) u1 hu1 _ hid1 hnd _ hsetph
    · exact getKey_applySets_two_fst _ _ _ _ _ (by decide)
    · exact getKey_applySets_two_snd _ _ _ _ _

/-- C3 counterexample: for the empty phone string (a "phone string" the
claim quantifies over) both calls fail with 400 and return the store
unchanged, so the second call updates no User record at all. -/
theorem send_otp_twice_empty_phone_nothing_updated :
    (send_otp ((send_otp (some ⟨[], [], [], 0, 0⟩) "").1) "").1 =
      some ⟨[], [], [], 0, 0⟩ ∧
    (send_otp ((send_otp (some ⟨[], [], [], 0, 0⟩) "").1) "").2 =
      .err 400 "Phone is required" ∧
    ((⟨[], [], [], 0, 0⟩ : DB).user.filter
        (fun d => matchesF d ("phone", BVal.str (pyStrip "")))).length = 0 := by
  decide

/-- C3 (amended): for every phone that is non-empty after trimming, with the
store available and the store invariants holding (generated ids fresh and
pairwise distinct, at most one user with the phone), calling send-otp twice
does not create two User records: the second call keeps the collection size
and the one-record-per-phone count unchanged, updating the existing user in
place with `is_verified = false` and `last_login` set to the second call's
time. -/
theorem send_otp_twice_updates_not_inserts (db : DB) (phone : String)
    (hph : pyStrip phone ≠ "")
    (hfresh : userIdsFresh db) (hnd : userIdsNodup db)
    (hone : (db.user.filter
        (fun d => matchesF d ("phone", BVal.str (pyStrip phone)))).length ≤ 1) :
    ∃ db1 db2,
      (send_otp (some db) phone).1 = some db1 ∧
      send_otp (some db1) phone =
        (some db2, .sendOk "1234" "OTP generated. Use 1234 for demo.") ∧
      db2.user.length = db1.user.length ∧
      (db2.user.filter
          (fun d => matchesF d ("phone", BVal.str (pyStrip phone)))).length = 1 ∧
      ∃ u, find_one db2.user ("phone", BVal.str (pyStrip phone)) = some u ∧
        getKey u "is_verified" = some (.bool false) ∧
        getKey u "last_login" = some (.str (isoStr db1.clock)) := by
  obtain ⟨db1, h1, hclock, hf1, hn1, hc1⟩ :=
    send_otp_first_call db phone hph hfresh hnd hone
  obtain ⟨db2, h2, hlen, hc2, hu⟩ :=
    send_otp_second_call db1 phone hph hf1 hn1 hc1
  exact ⟨db1, db2, h1, h2, hlen, hc2, hu⟩

/-- C3 witness: phone "p" against an empty store. -/
theorem send_otp_twice_updates_not_inserts_witness :
    pyStrip "p" ≠ "" ∧
    userIdsFresh ⟨[], [], [], 0, 0⟩ ∧
    userIdsNodup ⟨[], [], [], 0, 0⟩ ∧
    ((⟨[], [], [], 0, 0⟩ : DB).user.filter
        (fun d => matchesF d ("phone", BVal.str (pyStrip "p")))).length ≤ 1 ∧
    (∃ db1 db2,
      (send_otp (some ⟨[], [], [], 0, 0⟩) "p").1 = some db1 ∧
      send_otp (some db1) "p" =
        (some db2, .sendOk "1234" "OTP generated. Use 1234 for demo.") ∧
      db2.user.length = db1.user.length ∧
      (db2.user.filter
          (fun d => matchesF d ("phone", BVal.str (pyStrip "p")))).length = 1 ∧
      ∃ u, find_one db2.user ("phone", BVal.str (pyStrip "p")) = some u ∧
        getKey u "is_verified" = some (.bool false) ∧
        getKey u "last_login" = some (.str (isoStr db1.clock))) :=
  ⟨by decide, fun d hd => absurd hd (List.not_mem_nil d), List.nodup_nil,
   by decide,
   send_otp_twice_updates_not_inserts ⟨[], [], [], 0, 0⟩ "p" (by decide)
     (fun d hd => absurd hd (List.not_mem_nil d)) List.nodup_nil (by decide)⟩

/-- C7: starting from a store whose restaurant and product collections are
both empty, the startup seed runs without error, GET /restaurants returns
exactly the two records named "Spice Garden" and "Pasta Piazza", and GET
/products returns exactly three records — two whose `restaurant_id` equals
Spice Garden's stringified store identifier and one with Pasta Piazza's
(the two identifiers being distinct). -/
theorem seed_fresh_store_lists (db : DB) (hr : db.restaurant = [])
    (hp : db.product = []) :
    ∃ db', seed_data (some db) = some (some db') ∧
      ∃ r1 r2, list_restaurants (some db') = .restListOk [r1, r2] ∧
        r1.name = "Spice Garden" ∧ r2.name = "Pasta Piazza" ∧
        ∃ p1 p2 p3, list_products (some db') = .prodListOk [p1, p2, p3] ∧
          p1.restaurant_id = some r1.id ∧ p2.restaurant_id = some r1.id ∧
          p3.restaurant_id = some r2.id ∧ r1.id ≠ r2.id := by
  obtain ⟨u, rs, ps0, n, t⟩ := db
  dsimp only at hr hp
  subst hr
  subst hp
  refine ⟨_, rfl, _, _, rfl, rfl, rfl, _, _, _, rfl, rfl, rfl, rfl, ?_⟩
  intro h
  have := genOid_inj n (n + 1) h
  omega

/-- C7 witness: the completely fresh store. -/
theorem seed_fresh_store_lists_witness :
    ((⟨[], [], [], 0, 0⟩ : DB).restaurant = []) ∧
    ((⟨[], [], [], 0, 0⟩ : DB).product = []) ∧
    (∃ db', seed_data (some ⟨[], [], [], 0, 0⟩) = some (some db') ∧
      ∃ r1 r2, list_restaurants (some db') = .restListOk [r1, r2] ∧
        r1.name = "Spice Garden" ∧ r2.name = "Pasta Piazza" ∧
        ∃ p1 p2 p3, list_products (some db') = .prodListOk [p1, p2, p3] ∧
          p1.restaurant_id = some r1.id ∧ p2.restaurant_id = some r1.id ∧
          p3.restaurant_id = some r2.id ∧ r1.id ≠ r2.id) :=
  ⟨rfl, rfl, seed_fresh_store_lists ⟨[], [], [], 0, 0⟩ rfl rfl⟩
